import Mathlib

/-!
Verification development for the laptop-price-prediction service.

The development shallowly embeds the backend of the repository:

* `src/backend/schema.py` — the `LaptopSpecs` pydantic model and its
  validators (the validation gate for incoming specifications);
* `src/backend/prediction_servies.py` — `PredictionService` with
  `calculate_ppi`, `preprocess_boolean`, `prepare_features`, `predict`
  and `get_feature_options`;
* `src/backend/model_loader.py` — the `ModelLoader` singleton that
  caches the deserialized pipeline and reference dataframe.

Python floats are modelled by rationals (for validated input fields)
and by real numbers (for derived quantities such as pixel density and
the exponentiated log-price).  The pickle files on disk are modelled by
a `Disk` environment carrying a generation number, so that "which
load/reload cycle an artifact came from" is observable in the model.
External library behaviour that the code relies on (numpy dtype
promotion, pandas `unique`, Python `sorted` and `int`) is embedded
alongside, following the documented semantics of those libraries.
-/

/-! ## Python `str.split` and `int()` (used by `schema.py` and `calculate_ppi`) -/

/-- Model of Python's `str.split(sep)` for a single-character separator,
working on the underlying character list.  `splitOnCharAux c cs acc`
accumulates the current fragment in `acc` (reversed). -/
def splitOnCharAux (c : Char) : List Char → List Char → List (List Char)
  | [], acc => [acc.reverse]
  | x :: xs, acc =>
      if x = c then acc.reverse :: splitOnCharAux c xs []
      else splitOnCharAux c xs (x :: acc)

/-- Python `s.split(c)` for a one-character separator `c`. -/
def splitOnChar (c : Char) (s : String) : List String :=
  (splitOnCharAux c s.data []).map fun l => ⟨l⟩

/-- Characters stripped by Python `int()` around a numeric literal. -/
def isPySpace (c : Char) : Bool :=
  c = ' ' || c = '\t' || c = '\n' || c = '\r'

/-- Strip leading and trailing whitespace from a character list. -/
def stripSpaces (l : List Char) : List Char :=
  ((l.dropWhile isPySpace).reverse.dropWhile isPySpace).reverse

/-- Numeric value of a list of decimal digit characters. -/
def digitsVal (l : List Char) : Nat :=
  l.foldl (fun acc c => acc * 10 + (c.toNat - '0'.toNat)) 0

/-- Model of Python's `int(s)`: optional surrounding whitespace, an
optional single sign, then a nonempty run of decimal digits; anything
else raises `ValueError` (modelled by `none`).  Underscore digit
separators and non-ASCII digits accepted by CPython are not modelled;
no input in this development uses them. -/
def parsePyIntChars (l : List Char) : Option Int :=
  match stripSpaces l with
  | '+' :: rest =>
      if !rest.isEmpty && rest.all Char.isDigit then some (digitsVal rest) else none
  | '-' :: rest =>
      if !rest.isEmpty && rest.all Char.isDigit then some (-(digitsVal rest : Int)) else none
  | l' =>
      if !l'.isEmpty && l'.all Char.isDigit then some (digitsVal l') else none

/-- Python `int(s)` on a string. -/
def parsePyInt (s : String) : Option Int :=
  parsePyIntChars s.data

/-- Shared parsing step of `LaptopSpecs.validate_resolution` (schema.py)
and `PredictionService.calculate_ppi` (prediction_servies.py): split the
resolution on `'x'`, demand exactly two fragments, and parse each with
Python `int()`.  Both code paths raise (equivalently, return `none`)
under exactly this failure condition. -/
def parseResolution (s : String) : Option (Int × Int) :=
  match splitOnChar 'x' s with
  | [a, b] =>
      match parsePyInt a, parsePyInt b with
      | some w, some h => some (w, h)
      | _, _ => none
  | _ => none

/-! ## `schema.py`: the `LaptopSpecs` validation gate -/

/-- Raw field values of a prospective `LaptopSpecs` object, after
pydantic's type coercion but before constraint validation.  Python
floats are modelled by rationals. -/
structure LaptopSpecs where
  company : String
  type : String
  ram : Int
  weight : ℚ
  touchscreen : String
  ips : String
  screen_size : ℚ
  resolution : String
  cpu : String
  hdd : Int
  ssd : Int
  gpu : String
  os : String
deriving DecidableEq

/-- Allowed `ram` values (`Literal[2, 4, 6, 8, 12, 16, 24, 32, 64]`). -/
def ramOptions : List Int := [2, 4, 6, 8, 12, 16, 24, 32, 64]

/-- Allowed `hdd` values (`Literal[0, 128, 256, 512, 1024, 2048]`). -/
def hddOptions : List Int := [0, 128, 256, 512, 1024, 2048]

/-- Allowed `ssd` values (`Literal[0, 8, 128, 256, 512, 1024]`). -/
def ssdOptions : List Int := [0, 8, 128, 256, 512, 1024]

/-- Construction-time validation of `LaptopSpecs` (schema.py lines
9–37): the `Literal` fields, `weight > 0`, `10.0 ≤ screen_size ≤ 18.0`,
and the `validate_resolution` validator.  Returns `true` exactly when
pydantic accepts the object. -/
def laptopSpecsValid (s : LaptopSpecs) : Bool :=
  ramOptions.contains s.ram &&
  decide (0 < s.weight) &&
  (s.touchscreen == "No" || s.touchscreen == "Yes") &&
  (s.ips == "No" || s.ips == "Yes") &&
  decide (10 ≤ s.screen_size) &&
  decide (s.screen_size ≤ 18) &&
  (parseResolution s.resolution).isSome &&
  hddOptions.contains s.hdd &&
  ssdOptions.contains s.ssd

example : parseResolution "1920x1080" = some (1920, 1080) := by decide
example : parseResolution "1920-1080" = none := by decide
example : parseResolution "0x0" = some (0, 0) := by decide
example : parseResolution "-1920x1080" = some (-1920, 1080) := by decide
example : parsePyInt " 42 " = some 42 := by decide
example : parsePyInt "4a" = none := by decide

/-! ## `prediction_servies.py`: feature engineering -/

/-- `PredictionService.calculate_ppi` (prediction_servies.py lines
22–36): parse `'WIDTHxHEIGHT'` with `map(int, resolution.split('x'))`
and compute `((x ** 2) + (y ** 2)) ** 0.5 / screen_size`.  The Python
float power `** 0.5` on the nonnegative value `x² + y²` is real square
root; a malformed resolution raises (modelled by `none`). -/
noncomputable def calculate_ppi (resolution : String) (screen_size : ℝ) : Option ℝ :=
  match parseResolution resolution with
  | none => none
  | some (x, y) => some (Real.sqrt ((x : ℝ) ^ 2 + (y : ℝ) ^ 2) / screen_size)

/-- `PredictionService.preprocess_boolean` (prediction_servies.py lines
38–49): `return 1 if value == 'Yes' else 0`. -/
def preprocess_boolean (value : String) : Int :=
  if value == "Yes" then 1 else 0

/-- A Python value placed into the feature list handed to `np.array`:
a string, an `int`, or a float (modelled by a real number). -/
inductive PyVal where
  | s (v : String)
  | i (v : Int)
  | f (v : ℝ)

/-- Whether the value is a Python string. -/
def PyVal.isStr : PyVal → Bool
  | .s _ => true
  | _ => false

/-- Whether the value is a Python float. -/
def PyVal.isFloat : PyVal → Bool
  | .f _ => true
  | _ => false

/-- Numpy dtypes relevant to `np.array` over the mixed feature list. -/
inductive NpDtype where
  | int64
  | float64
  | unicode
deriving DecidableEq

/-- Numpy's common-dtype promotion for `np.array([...])` over Python
scalars (documented numpy semantics, relied on by `prepare_features`):
if any element is a string the array is a unicode string array;
otherwise floats dominate ints. -/
def npCommonDtype (vs : List PyVal) : NpDtype :=
  if vs.any PyVal.isStr then .unicode
  else if vs.any PyVal.isFloat then .float64
  else .int64

/-- The string rendering numpy gives an element when the common dtype
is unicode: strings stay themselves, ints render by Python `str`, and
floats render through the given float formatter (float-to-decimal
formatting is kept abstract). -/
def renderVal (frepr : ℝ → String) : PyVal → String
  | .s v => v
  | .i n => toString n
  | .f x => frepr x

/-- An element of a numpy array after dtype promotion. -/
inductive NpScalar where
  | str (v : String)
  | int (v : Int)
  | float (v : ℝ)

/-- Cast of one element to the promoted common dtype. -/
def npCast (frepr : ℝ → String) (dt : NpDtype) (v : PyVal) : NpScalar :=
  match dt, v with
  | .unicode, v => .str (renderVal frepr v)
  | .float64, .i n => .float (n : ℝ)
  | .float64, .f x => .float x
  | .float64, .s t => .str t
  | .int64, .i n => .int n
  | .int64, .f x => .float x
  | .int64, .s t => .str t

/-- A (reshaped) numpy array: dtype, shape, and row-major elements. -/
structure NpArray where
  dtype : NpDtype
  rows : Nat
  cols : Nat
  data : List NpScalar

/-- `np.array(vs).reshape(rows, cols)`: promote to the common dtype,
cast every element, record the shape. -/
def npArrayOfList (frepr : ℝ → String) (vs : List PyVal) (rows cols : Nat) : NpArray :=
  { dtype := npCommonDtype vs
    rows := rows
    cols := cols
    data := vs.map (npCast frepr (npCommonDtype vs)) }

/-- Error text standing for the `ValueError` raised while parsing a
malformed resolution inside `calculate_ppi`. -/
def resolutionErrorText : String := "invalid resolution"

/-- The twelve-entry feature list built by `prepare_features`
(prediction_servies.py lines 61–82), in source order, given the already
computed `ppi` value. -/
def featureList (specs : LaptopSpecs) (ppi : ℝ) : List PyVal :=
  [ .s specs.company
  , .s specs.type
  , .i specs.ram
  , .f (specs.weight : ℝ)
  , .i (preprocess_boolean specs.touchscreen)
  , .i (preprocess_boolean specs.ips)
  , .f ppi
  , .s specs.cpu
  , .i specs.hdd
  , .i specs.ssd
  , .s specs.gpu
  , .s specs.os ]

/-- `PredictionService.prepare_features` (prediction_servies.py lines
51–87): encode the booleans, compute the PPI, build the mixed value
list, and hand it to `np.array(...).reshape(1, 12)`.  An exception from
`calculate_ppi` propagates (modelled by `Except.error`). -/
noncomputable def prepare_features (frepr : ℝ → String) (specs : LaptopSpecs) :
    Except String NpArray :=
  match calculate_ppi specs.resolution (specs.screen_size : ℝ) with
  | none => .error resolutionErrorText
  | some ppi => .ok (npArrayOfList frepr (featureList specs ppi) 1 12)

/-! ## `prediction_servies.py`: `predict` -/

/-- The trained pipeline artifact as used by `predict`: an object whose
`predict` method takes the feature array and returns an array of
numbers (or raises). -/
def Pipeline : Type := NpArray → Except String (List ℝ)

/-- Error text standing for the `IndexError` raised by
`self.pipeline.predict(features)[0]` on an empty result array. -/
def indexErrorText : String := "index 0 is out of bounds for axis 0 with size 0"

/-- `PredictionService.predict` (prediction_servies.py lines 89–118):
prepare the features, call `pipeline.predict`, take element `[0]` as
the log-scale price and return `np.exp` of it; any exception `e` along
the way is re-raised as `Exception(f"Prediction failed: {str(e)}")`. -/
noncomputable def predictPrice (pl : Pipeline) (frepr : ℝ → String)
    (specs : LaptopSpecs) : Except String ℝ :=
  match prepare_features frepr specs with
  | .error e => .error ("Prediction failed: " ++ e)
  | .ok features =>
      match pl features with
      | .error e => .error ("Prediction failed: " ++ e)
      | .ok [] => .error ("Prediction failed: " ++ indexErrorText)
      | .ok (logPrice :: _) => .ok (Real.exp logPrice)

/-! ## `prediction_servies.py`: `get_feature_options` -/

/-- The reference dataframe, restricted to the five categorical columns
read by `get_feature_options`: `'Company'`, `'TypeName'`, `'Cpu brand'`,
`'Gpu brand'`, `'os'`. -/
structure ReferenceDf where
  company : List String
  typeName : List String
  cpuBrand : List String
  gpuBrand : List String
  os : List String

/-- Pandas `Series.unique().tolist()`: the distinct values of a column
in order of first appearance; `seen` records values already emitted. -/
def pdUniqueAux : List String → List String → List String
  | [], _ => []
  | x :: xs, seen =>
      if x ∈ seen then pdUniqueAux xs seen
      else x :: pdUniqueAux xs (x :: seen)

/-- Pandas `unique` over a column. -/
def pdUnique (l : List String) : List String :=
  pdUniqueAux l []

/-- Python `sorted` on strings: the lexicographic (code-point) order,
matching Lean's linear order on `String`. -/
def pySorted (l : List String) : List String :=
  l.insertionSort (· ≤ ·)

/-- The dictionary returned by `get_feature_options`, with its exact
keys `companies`, `types`, `cpu_brands`, `gpu_brands`,
`operating_systems` as fields. -/
structure FeatureOptions where
  companies : List String
  types : List String
  cpu_brands : List String
  gpu_brands : List String
  operating_systems : List String

/-- `PredictionService.get_feature_options` (prediction_servies.py
lines 120–135): for each categorical column of the dataframe,
`sorted(df[col].unique().tolist())`. -/
def get_feature_options (df : ReferenceDf) : FeatureOptions :=
  { companies := pySorted (pdUnique df.company)
    types := pySorted (pdUnique df.typeName)
    cpu_brands := pySorted (pdUnique df.cpuBrand)
    gpu_brands := pySorted (pdUnique df.gpuBrand)
    operating_systems := pySorted (pdUnique df.os) }

/-! ## `model_loader.py`: the `ModelLoader` singleton -/

/-- Condition of one pickle file on disk: absent, present but failing
to deserialize, or deserializing successfully. -/
inductive FileStatus where
  | missing
  | corrupt
  | ok
deriving DecidableEq

/-- The durable-storage environment at the moment of one loader call:
`gen` numbers the artifact generation currently on disk (both pickle
files belong to it), and the two `FileStatus` fields describe
`PIPELINE_PATH` and `DATAFRAME_PATH`. -/
structure Disk where
  gen : Nat
  pipeFile : FileStatus
  dfFile : FileStatus
deriving DecidableEq

/-- The mutable fields of the `ModelLoader` singleton: `_pipeline` and
`_dataframe`, each either empty or holding the artifact deserialized
from generation `g`. -/
structure CacheState where
  pipeline : Option Nat
  dataframe : Option Nat
deriving DecidableEq

/-- The exceptions `load_models` can raise: `FileNotFoundError` for
either path, or the wrapped `Exception("Failed to load models: ...")`
on a pickle failure. -/
inductive LoadError where
  | pipelineNotFound
  | dataframeNotFound
  | loadFailed
deriving DecidableEq

/-- `ModelLoader.load_models` (model_loader.py lines 33–69).  If either
cached field is `None` the body runs: both paths are checked for
existence, then the pipeline is deserialized and assigned to
`self._pipeline`, then the dataframe is deserialized and assigned to
`self._dataframe`; a pickle failure is re-raised after the assignments
made so far.  Finally `(self._pipeline, self._dataframe)` is returned.
The result pairs the raised exception or returned artifacts with the
post-call cache state. -/
def load_models (d : Disk) (s : CacheState) :
    Except LoadError (Nat × Nat) × CacheState :=
  match s.pipeline, s.dataframe with
  | some p, some dfr => (.ok (p, dfr), s)
  | _, _ =>
      if d.pipeFile = .missing then (.error .pipelineNotFound, s)
      else if d.dfFile = .missing then (.error .dataframeNotFound, s)
      else if d.pipeFile = .corrupt then (.error .loadFailed, s)
      else
        let s1 : CacheState := { s with pipeline := some d.gen }
        if d.dfFile = .corrupt then (.error .loadFailed, s1)
        else (.ok (d.gen, d.gen), { s1 with dataframe := some d.gen })

/-- `ModelLoader.get_pipeline` (model_loader.py lines 71–75): load if
`self._pipeline is None`, then return `self._pipeline` (which a
successful `load_models` has just set to the loaded pipeline). -/
def ModelLoader.get_pipeline (d : Disk) (s : CacheState) :
    Except LoadError Nat × CacheState :=
  match s.pipeline with
  | some p => (.ok p, s)
  | none =>
      match load_models d s with
      | (.error e, s') => (.error e, s')
      | (.ok pr, s') => (.ok pr.1, s')

/-- `ModelLoader.get_dataframe` (model_loader.py lines 77–81). -/
def ModelLoader.get_dataframe (d : Disk) (s : CacheState) :
    Except LoadError Nat × CacheState :=
  match s.dataframe with
  | some dfr => (.ok dfr, s)
  | none =>
      match load_models d s with
      | (.error e, s') => (.error e, s')
      | (.ok pr, s') => (.ok pr.2, s')

/-- `ModelLoader.reload_models` (model_loader.py lines 83–93): set both
cached fields to `None`, then `load_models`. -/
def reload_models (d : Disk) (_s : CacheState) :
    Except LoadError (Nat × Nat) × CacheState :=
  load_models d { pipeline := none, dataframe := none }

/-- One sequential call into the loader, together with the disk
contents at the moment of that call. -/
inductive Op where
  | load (d : Disk)
  | reload (d : Disk)
  | getPipeline (d : Disk)
  | getDataframe (d : Disk)

/-- Cache state after one loader call. -/
def stepState (s : CacheState) : Op → CacheState
  | .load d => (load_models d s).2
  | .reload d => (reload_models d s).2
  | .getPipeline d => (ModelLoader.get_pipeline d s).2
  | .getDataframe d => (ModelLoader.get_dataframe d s).2

/-- Cache state after a sequence of loader calls. -/
def runOps (s : CacheState) : List Op → CacheState
  | [] => s
  | op :: ops => runOps (stepState s op) ops

/-- The loader state at process start: both fields `None`
(model_loader.py lines 23–25). -/
def initState : CacheState := { pipeline := none, dataframe := none }

/-! ## `prediction_servies.py`: the service object and its pipeline -/

/-- The state a `PredictionService` instance carries: `self.pipeline`,
the pipeline artifact fetched from the loader in `__init__`
(prediction_servies.py lines 18–20). -/
structure PredictionService where
  pipeline : Nat
deriving DecidableEq

/-- `PredictionService.__init__`: `self.pipeline =
model_loader.get_pipeline()`.  On success the constructed service holds
the artifact the loader returned. -/
def mkPredictionService (d : Disk) (s : CacheState) :
    Except LoadError PredictionService × CacheState :=
  match ModelLoader.get_pipeline d s with
  | (.ok p, s') => (.ok { pipeline := p }, s')
  | (.error e, s') => (.error e, s')

/-- The artifact a `predict` call on this service invokes: `predict`
reads `self.pipeline` (prediction_servies.py line 107), the field
captured at construction, never the loader's current field. -/
def PredictionService.predictArtifact (svc : PredictionService) : Nat :=
  svc.pipeline

/-! ## Interleaved first-access model of `get_pipeline`

Several request threads may call `ModelLoader.get_pipeline` on a cold
cache.  Each call runs, in order: the `None` check (`get_pipeline` line
73 together with the identical guard at `load_models` line 44, both
plain field reads with no lock around them), the pipeline
deserialization-and-assignment (lines 56–57), and the dataframe
deserialization-and-assignment (lines 61–62).  The thread scheduler may
switch between any two of these steps; each deserialization bumps a
counter.  Disk failures are not modelled here: both pickle files load
successfully, as in normal first-access operation. -/

/-- Shared state of the interleaved model: the two cached fields, the
deserialization counters, and each thread's progress (`0` = about to
run the `None` check, `1` = about to deserialize the pipeline, `2` =
about to deserialize the dataframe, `3` = returned). -/
structure MTState where
  pipeline : Option Nat
  dataframe : Option Nat
  pipeLoads : Nat
  dfLoads : Nat
  pcs : List Nat
deriving DecidableEq

/-- Program counter of thread `t` (structural list lookup). -/
def pcAt : List Nat → Nat → Option Nat
  | [], _ => none
  | x :: _, 0 => some x
  | _ :: xs, t + 1 => pcAt xs t

/-- Update the program counter of thread `t` (structural list update). -/
def pcSet : List Nat → Nat → Nat → List Nat
  | [], _, _ => []
  | _ :: xs, 0, v => v :: xs
  | x :: xs, t + 1, v => x :: pcSet xs t v

/-- Run one step of thread `t` of `get_pipeline`; a thread id without a
program counter, or a finished thread, leaves the state unchanged. -/
def threadStep (d : Disk) (s : MTState) (t : Nat) : MTState :=
  match pcAt s.pcs t with
  | none => s
  | some pc =>
      if pc = 0 then
        if s.pipeline = none then { s with pcs := pcSet s.pcs t 1 }
        else { s with pcs := pcSet s.pcs t 3 }
      else if pc = 1 then
        { s with pipeline := some d.gen
                 pipeLoads := s.pipeLoads + 1
                 pcs := pcSet s.pcs t 2 }
      else if pc = 2 then
        { s with dataframe := some d.gen
                 dfLoads := s.dfLoads + 1
                 pcs := pcSet s.pcs t 3 }
      else s

/-- Run a schedule (a list of thread ids, one per step). -/
def runSched (d : Disk) (s : MTState) : List Nat → MTState
  | [] => s
  | t :: ts => runSched d (threadStep d s t) ts

/-- Cold-cache start with `n` threads each about to call
`get_pipeline` for the first time. -/
def mtInit (n : Nat) : MTState :=
  { pipeline := none
    dataframe := none
    pipeLoads := 0
    dfLoads := 0
    pcs := List.replicate n 0 }

/-! ## Characterization of the validation gate -/

/-- Unfolding of `laptopSpecsValid` into its individual constraints. -/
lemma laptopSpecsValid_iff (s : LaptopSpecs) :
    laptopSpecsValid s = true ↔
      s.ram ∈ ramOptions ∧ 0 < s.weight ∧
      (s.touchscreen = "No" ∨ s.touchscreen = "Yes") ∧
      (s.ips = "No" ∨ s.ips = "Yes") ∧
      10 ≤ s.screen_size ∧ s.screen_size ≤ 18 ∧
      (parseResolution s.resolution).isSome ∧
      s.hdd ∈ hddOptions ∧ s.ssd ∈ ssdOptions := by
  simp [laptopSpecsValid, List.contains, List.elem_iff, and_assoc]

/-! ## Claim C8 -/

/-- C8: `preprocess_boolean` (the spec's `encode_boolean`) maps `"Yes"`
to `1`, maps `"No"` and every other value to `0`, and its range is
exactly `{0, 1}` (each output value attained). -/
theorem c8_encode_boolean_permissive :
    preprocess_boolean "Yes" = 1 ∧ preprocess_boolean "No" = 0 ∧
    (∀ v : String, v ≠ "Yes" → preprocess_boolean v = 0) ∧
    (∀ v : String, preprocess_boolean v = 0 ∨ preprocess_boolean v = 1) := by
  refine ⟨rfl, rfl, fun v hv => ?_, fun v => ?_⟩
  · simp [preprocess_boolean, hv]
  · by_cases h : v = "Yes" <;> simp [preprocess_boolean, h]

/-- Witness for C8: instantiating the hypothesis-bearing conjunct at the
malformed input `"maybe"`. -/
theorem c8_encode_boolean_permissive_witness :
    ("maybe" : String) ≠ "Yes" ∧ preprocess_boolean "maybe" = 0 :=
  ⟨by decide, c8_encode_boolean_permissive.2.2.1 "maybe" (by decide)⟩

/-! ## Claim C3 -/

/-- C3 (amended): specification construction rejects `ram = 10`,
`screen_size = 9.9`, `weight = 0` and `resolution = "1920-1080"`, and
every accepted specification satisfies the closed-set, range and
resolution-format constraints — but the parsed width and height are only
required to be integers, not positive integers. -/
theorem c3_validation_gate_amended (s : LaptopSpecs) :
    (s.ram = 10 → laptopSpecsValid s = false) ∧
    (s.screen_size = 99/10 → laptopSpecsValid s = false) ∧
    (s.weight = 0 → laptopSpecsValid s = false) ∧
    (s.resolution = "1920-1080" → laptopSpecsValid s = false) ∧
    (laptopSpecsValid s = true →
      s.ram ∈ ramOptions ∧ 0 < s.weight ∧
      10 ≤ s.screen_size ∧ s.screen_size ≤ 18 ∧
      s.hdd ∈ hddOptions ∧ s.ssd ∈ ssdOptions ∧
      ∃ w h, parseResolution s.resolution = some (w, h)) := by
  refine ⟨?_, ?_, ?_, ?_, ?_⟩
  · intro h10
    rw [Bool.eq_false_iff]
    intro htrue
    have hc := (laptopSpecsValid_iff s).1 htrue
    rw [h10] at hc
    exact absurd hc.1 (by decide)
  · intro h99
    rw [Bool.eq_false_iff]
    intro htrue
    have hc := (laptopSpecsValid_iff s).1 htrue
    have := hc.2.2.2.2.1
    rw [h99] at this
    norm_num at this
  · intro h0
    rw [Bool.eq_false_iff]
    intro htrue
    have hc := (laptopSpecsValid_iff s).1 htrue
    have := hc.2.1
    rw [h0] at this
    norm_num at this
  · intro hres
    rw [Bool.eq_false_iff]
    intro htrue
    have hc := (laptopSpecsValid_iff s).1 htrue
    have := hc.2.2.2.2.2.2.1
    rw [hres] at this
    exact absurd this (by decide)
  · intro htrue
    have hc := (laptopSpecsValid_iff s).1 htrue
    refine ⟨hc.1, hc.2.1, hc.2.2.2.2.1, hc.2.2.2.2.2.1, hc.2.2.2.2.2.2.2.1,
      hc.2.2.2.2.2.2.2.2, ?_⟩
    rcases hp : parseResolution s.resolution with _ | ⟨w, h⟩
    · rw [hp] at hc
      exact absurd hc.2.2.2.2.2.2.1 (by simp)
    · exact ⟨w, h, rfl⟩

/-- Witness for C3 (amended): the amended theorem applied to the
worked example of schema.py with `ram := 10`. -/
theorem c3_validation_gate_amended_witness :
    laptopSpecsValid
      { company := "Dell", type := "Notebook", ram := 10, weight := 3/2,
        touchscreen := "No", ips := "Yes", screen_size := 78/5,
        resolution := "1920x1080", cpu := "Intel Core i5", hdd := 0,
        ssd := 256, gpu := "Intel", os := "Windows" } = false :=
  (c3_validation_gate_amended _).1 rfl

/-- Specification identical to the schema's worked example except that
its resolution is `"0x0"`, whose width and height are not positive. -/
def spec0x0 : LaptopSpecs :=
  { company := "Dell", type := "Notebook", ram := 8, weight := 2,
    touchscreen := "No", ips := "Yes", screen_size := 15,
    resolution := "0x0", cpu := "Intel Core i5", hdd := 0, ssd := 256,
    gpu := "Intel", os := "Windows" }

/-- C3 counterexample: a specification whose resolution width and
height are `0` — not positive integers — passes construction, so the
gate does not reject every resolution whose width or height fails to be
a positive integer. -/
theorem c3_counterexample :
    laptopSpecsValid spec0x0 = true ∧
    parseResolution spec0x0.resolution = some (0, 0) ∧
    ¬ (0 < (0 : Int)) :=
  ⟨by decide, by decide, by decide⟩

/-! ## Loader lemmas -/

/-- Disk holding the generation-1 artifacts, both files healthy. -/
def diskG1 : Disk := { gen := 1, pipeFile := .ok, dfFile := .ok }

/-- Disk holding the generation-2 artifacts, both files healthy. -/
def diskG2 : Disk := { gen := 2, pipeFile := .ok, dfFile := .ok }

/-- Disk whose generation-2 dataframe pickle fails to deserialize. -/
def diskG2corrupt : Disk := { gen := 2, pipeFile := .ok, dfFile := .corrupt }

/-- Disk holding the generation-3 artifacts, both files healthy. -/
def diskG3 : Disk := { gen := 3, pipeFile := .ok, dfFile := .ok }

/-- A successful `load_models` leaves both loaded artifacts resident. -/
lemma load_models_ok {d : Disk} {s s' : CacheState} {p dfr : Nat}
    (h : load_models d s = (.ok (p, dfr), s')) :
    s'.pipeline = some p ∧ s'.dataframe = some dfr := by
  rcases hp : s.pipeline with _ | p0 <;> rcases hd : s.dataframe with _ | d0 <;>
    simp only [load_models, hp, hd] at h
  case some.some =>
    rw [Prod.mk.injEq, Except.ok.injEq, Prod.mk.injEq] at h
    obtain ⟨⟨rfl, rfl⟩, rfl⟩ := h
    simp [hp, hd]
  all_goals
    split_ifs at h <;> simp at h <;> obtain ⟨⟨rfl, rfl⟩, rfl⟩ := h <;> simp

/-- The invariant the loader maintains: whenever the dataframe is
resident, the pipeline is resident and from the same generation. -/
def CacheInv (s : CacheState) : Prop :=
  ∀ g, s.dataframe = some g → s.pipeline = some g

lemma cacheInv_init : CacheInv initState := by
  intro g h
  cases h

/-- One `load_models` call preserves the invariant. -/
lemma cacheInv_load (d : Disk) {s : CacheState} (h : CacheInv s) :
    CacheInv (load_models d s).2 := by
  rcases hp : s.pipeline with _ | p0 <;> rcases hd : s.dataframe with _ | d0
  · simp only [load_models, hp, hd]
    split_ifs <;> intro g hg <;> simp_all
  · exact absurd (h d0 hd) (by simp [hp])
  · simp only [load_models, hp, hd]
    split_ifs <;> intro g hg <;> simp_all
  · simp only [load_models, hp, hd]
    intro g hg
    simp_all [CacheInv]

/-- One loader call of any kind preserves the invariant. -/
lemma cacheInv_step (op : Op) {s : CacheState} (h : CacheInv s) :
    CacheInv (stepState s op) := by
  cases op with
  | load d => exact cacheInv_load d h
  | reload d =>
      have h0 : CacheInv ({ pipeline := none, dataframe := none } : CacheState) := by
        intro g hg
        cases hg
      exact cacheInv_load d h0
  | getPipeline d =>
      rcases hp : s.pipeline with _ | p0
      · simp only [stepState, ModelLoader.get_pipeline, hp]
        rcases hl : load_models d s with ⟨r, s'⟩
        have : CacheInv s' := by
          have := cacheInv_load d h
          rw [hl] at this
          exact this
        cases r <;> simpa [hl]
      · simpa [stepState, ModelLoader.get_pipeline, hp]
  | getDataframe d =>
      rcases hd : s.dataframe with _ | d0
      · simp only [stepState, ModelLoader.get_dataframe, hd]
        rcases hl : load_models d s with ⟨r, s'⟩
        have : CacheInv s' := by
          have := cacheInv_load d h
          rw [hl] at this
          exact this
        cases r <;> simpa [hl]
      · simpa [stepState, ModelLoader.get_dataframe, hd]

/-- Every state reachable from a state satisfying the invariant
satisfies it. -/
lemma cacheInv_runOps (ops : List Op) {s : CacheState} (h : CacheInv s) :
    CacheInv (runOps s ops) := by
  induction ops generalizing s with
  | nil => exact h
  | cons op ops ih => exact ih (cacheInv_step op h)

/-! ## Claim C7 -/

/-- C7: `load_models` is idempotent — with both artifacts resident it
returns the cached pair unchanged without touching the disk (the result
does not depend on `d`); on a cold or partially cold cache with healthy
files it deserializes both artifacts from disk; and `reload_models`
unconditionally clears both cached fields and loads afresh, whatever
the previous state was. -/
theorem c7_load_idempotent_reload_fresh :
    (∀ (d : Disk) (p dfr : Nat),
        load_models d { pipeline := some p, dataframe := some dfr }
          = (.ok (p, dfr), { pipeline := some p, dataframe := some dfr })) ∧
    (∀ (d : Disk) (s : CacheState),
        s.pipeline = none ∨ s.dataframe = none →
        d.pipeFile = .ok → d.dfFile = .ok →
        load_models d s
          = (.ok (d.gen, d.gen),
             { pipeline := some d.gen, dataframe := some d.gen })) ∧
    (∀ (d : Disk) (s : CacheState), reload_models d s = load_models d initState) := by
  refine ⟨fun d p dfr => rfl, ?_, fun d s => rfl⟩
  intro d s hcold hpf hdf
  rcases hp : s.pipeline with _ | p0 <;> rcases hd : s.dataframe with _ | d0 <;>
    simp_all [load_models]

/-- Witness for C7: a cold-cache load of the healthy generation-1 disk
installs and returns both generation-1 artifacts, and a reload from a
fully resident state equals a load on the cleared state. -/
theorem c7_load_idempotent_reload_fresh_witness :
    load_models diskG1 initState
      = (.ok (1, 1), { pipeline := some 1, dataframe := some 1 }) ∧
    reload_models diskG1 { pipeline := some 5, dataframe := some 5 }
      = load_models diskG1 initState :=
  ⟨c7_load_idempotent_reload_fresh.2.1 diskG1 initState (Or.inl rfl) rfl rfl,
   c7_load_idempotent_reload_fresh.2.2 diskG1 _⟩

/-! ## Claim C2 -/

/-- C2 (amended): in every cache state reachable by any sequence of
loader calls, a resident dataframe is paired with a resident pipeline
of the same generation — two artifacts of different generations are
never resident together.  (The unamended claim's further guarantee,
that a failed load leaves no half-updated state, is refuted by
`c2_counterexample`.) -/
theorem c2_same_generation_amended (ops : List Op) (g : Nat)
    (h : (runOps initState ops).dataframe = some g) :
    (runOps initState ops).pipeline = some g :=
  cacheInv_runOps ops cacheInv_init g h

/-- Witness for C2 (amended): after one successful load of the
generation-1 disk, the resident dataframe is generation 1 and the
theorem yields the generation-1 pipeline. -/
theorem c2_same_generation_amended_witness :
    (runOps initState [.load diskG1]).dataframe = some 1 ∧
    (runOps initState [.load diskG1]).pipeline = some 1 :=
  ⟨rfl, c2_same_generation_amended [.load diskG1] 1 rfl⟩

/-- C2 counterexample: a reload whose dataframe pickle fails leaves the
cache half-updated — the generation-2 pipeline is installed while the
dataframe slot is empty, despite the call reporting an error; a caller
then observes the generation-2 pipeline paired with a generation-3
dataframe once the disk holds generation 3. -/
theorem c2_counterexample :
    runOps initState [.load diskG1]
      = { pipeline := some 1, dataframe := some 1 } ∧
    (reload_models diskG2corrupt { pipeline := some 1, dataframe := some 1 }).1
      = .error .loadFailed ∧
    runOps initState [.load diskG1, .reload diskG2corrupt]
      = { pipeline := some 2, dataframe := none } ∧
    (ModelLoader.get_pipeline diskG3 { pipeline := some 2, dataframe := none }).1
      = .ok 2 ∧
    (ModelLoader.get_dataframe diskG3 { pipeline := some 2, dataframe := none }).1
      = .ok 3 :=
  ⟨rfl, rfl, rfl, rfl, rfl⟩

/-! ## Claim C1 -/

/-- C1 (amended): a `PredictionService` captures the pipeline resident
at its construction, and its `predict` calls keep using exactly that
artifact; after a successful `reload_models` the newly installed
pipeline is used only by services constructed after the reload — a
pre-reload service's `predict` does not switch to the new artifact
(`c1_counterexample` shows the unamended claim fails). -/
theorem c1_reload_isolation_amended (d d' : Disk) (s s' : CacheState)
    (svc : PredictionService)
    (hmk : mkPredictionService d s = (.ok svc, s')) :
    s'.pipeline = some svc.predictArtifact ∧
    (∀ p dfr s'', reload_models d' s' = (.ok (p, dfr), s'') →
        svc.predictArtifact = svc.pipeline ∧
        (svc.pipeline ≠ p → svc.predictArtifact ≠ p) ∧
        mkPredictionService d s''
          = (.ok { pipeline := p }, s'')) := by
  have hpipe : s'.pipeline = some svc.pipeline := by
    unfold mkPredictionService ModelLoader.get_pipeline at hmk
    rcases hp : s.pipeline with _ | p0 <;> rw [hp] at hmk
    · rcases hl : load_models d s with ⟨r, s₂⟩
      rw [hl] at hmk
      cases r with
      | error e => simp at hmk
      | ok pr =>
          simp at hmk
          obtain ⟨hsvc, hs⟩ := hmk
          subst hs
          rcases pr with ⟨p1, d1⟩
          have := load_models_ok hl
          simp [← hsvc, this.1]
    · simp at hmk
      obtain ⟨hsvc, hs⟩ := hmk
      subst hs
      simp [hp, ← hsvc]
  refine ⟨hpipe, ?_⟩
  intro p dfr s'' hrl
  have hres : s''.pipeline = some p := (load_models_ok hrl).1
  refine ⟨rfl, fun hne => hne, ?_⟩
  simp [mkPredictionService, ModelLoader.get_pipeline, hres]

/-- Witness for C1 (amended): concrete run — a service built from a
cold cache over the generation-1 disk captures pipeline 1; after a
successful reload installing generation 2, a freshly built service
captures pipeline 2. -/
theorem c1_reload_isolation_amended_witness :
    ({ pipeline := some 1, dataframe := some 1 } : CacheState).pipeline
      = some (PredictionService.predictArtifact { pipeline := 1 }) ∧
    mkPredictionService diskG1 { pipeline := some 2, dataframe := some 2 }
      = (.ok { pipeline := 2 }, { pipeline := some 2, dataframe := some 2 }) := by
  have h := c1_reload_isolation_amended diskG1 diskG2 initState
    { pipeline := some 1, dataframe := some 1 } { pipeline := 1 } rfl
  exact ⟨h.1, (h.2 2 2 { pipeline := some 2, dataframe := some 2 } rfl).2.2⟩

/-- C1 counterexample: the service built before the reload was
constructed with pipeline 1; the reload installs the generation-2 pair;
the old service's `predict` still invokes artifact 1, not the new
artifact 2. -/
theorem c1_counterexample :
    mkPredictionService diskG1 initState
      = (.ok { pipeline := 1 }, { pipeline := some 1, dataframe := some 1 }) ∧
    reload_models diskG2 { pipeline := some 1, dataframe := some 1 }
      = (.ok (2, 2), { pipeline := some 2, dataframe := some 2 }) ∧
    PredictionService.predictArtifact { pipeline := 1 } = 1 ∧
    (1 : Nat) ≠ 2 :=
  ⟨rfl, rfl, rfl, by decide⟩

/-! ## Claim C9 -/

/-- A multithreaded state in which the first load has fully completed:
the pipeline is resident and every thread is either before its `None`
check or finished.  From such a state no further deserialization can
happen. -/
def Settled (s : MTState) : Prop :=
  (∃ g, s.pipeline = some g) ∧
  ∀ t pc : Nat, pcAt s.pcs t = some pc → pc = 0 ∨ pc = 3

/-- Reading back a just-written program counter. -/
lemma pcAt_pcSet_self :
    ∀ (l : List Nat) (t v : Nat), pcAt (pcSet l t v) t = (pcAt l t).map fun _ => v
  | [], _, _ => rfl
  | _ :: _, 0, _ => rfl
  | _ :: xs, t + 1, v => pcAt_pcSet_self xs t v

/-- Writing one thread's program counter leaves the others unread. -/
lemma pcAt_pcSet_ne :
    ∀ (l : List Nat) (t t' v : Nat), t ≠ t' → pcAt (pcSet l t v) t' = pcAt l t'
  | [], _, _, _, _ => rfl
  | _ :: _, 0, 0, _, h => absurd rfl h
  | _ :: _, 0, _ + 1, _, _ => rfl
  | _ :: _, _ + 1, 0, _, _ => rfl
  | _ :: xs, t + 1, t' + 1, v, h =>
      pcAt_pcSet_ne xs t t' v fun he => h (by rw [he])

/-- A thread without a program counter does nothing. -/
lemma threadStep_pcNone (d : Disk) {s : MTState} {t : Nat}
    (hpc : pcAt s.pcs t = none) : threadStep d s t = s := by
  unfold threadStep
  rw [hpc]

/-- A thread about to run its `None` check while the pipeline is
already resident just returns. -/
lemma threadStep_pc0_resident (d : Disk) {s : MTState} {t g : Nat}
    (hpc : pcAt s.pcs t = some 0) (hg : s.pipeline = some g) :
    threadStep d s t = { s with pcs := pcSet s.pcs t 3 } := by
  unfold threadStep
  rw [hpc]
  simp [hg]

/-- A finished thread does nothing. -/
lemma threadStep_pc3 (d : Disk) {s : MTState} {t : Nat}
    (hpc : pcAt s.pcs t = some 3) : threadStep d s t = s := by
  unfold threadStep
  rw [hpc]
  simp

/-- One step from a settled state changes no counter and stays
settled. -/
lemma settled_threadStep (d : Disk) {s : MTState} (h : Settled s) (t : Nat) :
    (threadStep d s t).pipeLoads = s.pipeLoads ∧
    (threadStep d s t).dfLoads = s.dfLoads ∧
    Settled (threadStep d s t) := by
  obtain ⟨⟨g, hg⟩, hpcs⟩ := h
  rcases hpc : pcAt s.pcs t with _ | pc
  · rw [threadStep_pcNone d hpc]
    exact ⟨rfl, rfl, ⟨g, hg⟩, hpcs⟩
  · rcases hpcs t pc hpc with rfl | rfl
    · rw [threadStep_pc0_resident d hpc hg]
      refine ⟨rfl, rfl, ⟨g, hg⟩, ?_⟩
      intro t' pc' hpc'
      by_cases ht : t = t'
      · subst ht
        have hpc'' : pcAt (pcSet s.pcs t 3) t = some pc' := hpc'
        rw [pcAt_pcSet_self, hpc] at hpc''
        simp only [Option.map_some', Option.some.injEq] at hpc''
        omega
      · have hpc'' : pcAt (pcSet s.pcs t 3) t' = some pc' := hpc'
        rw [pcAt_pcSet_ne _ _ _ _ ht] at hpc''
        exact hpcs t' pc' hpc''
    · rw [threadStep_pc3 d hpc]
      exact ⟨rfl, rfl, ⟨g, hg⟩, hpcs⟩

/-- Counters never move once the state is settled, whatever schedule
follows. -/
lemma settled_runSched (d : Disk) (sched : List Nat) {s : MTState} (h : Settled s) :
    (runSched d s sched).pipeLoads = s.pipeLoads ∧
    (runSched d s sched).dfLoads = s.dfLoads := by
  induction sched generalizing s with
  | nil => exact ⟨rfl, rfl⟩
  | cons t ts ih =>
      obtain ⟨h1, h2, h3⟩ := settled_threadStep d h t
      obtain ⟨ih1, ih2⟩ := ih h3
      simp only [runSched]
      exact ⟨ih1.trans h1, ih2.trans h2⟩

/-- Running a concatenated schedule runs the pieces in order. -/
lemma runSched_append (d : Disk) (s : MTState) (l1 l2 : List Nat) :
    runSched d s (l1 ++ l2) = runSched d (runSched d s l1) l2 := by
  induction l1 generalizing s with
  | nil => rfl
  | cons t ts ih =>
      simp only [List.cons_append, runSched]
      exact ih _

/-- After thread 0 runs its whole first-time `get_pipeline` on a cold
cache, both artifacts are resident and each was deserialized once. -/
lemma first_call_state (d : Disk) (n : Nat) :
    runSched d (mtInit (n + 1)) [0, 0, 0]
      = { pipeline := some d.gen, dataframe := some d.gen, pipeLoads := 1,
          dfLoads := 1, pcs := 3 :: List.replicate n 0 } := rfl

/-- Every thread of a cold start is before its `None` check. -/
lemma pcAt_replicate_zero :
    ∀ (n t pc : Nat), pcAt (List.replicate n 0) t = some pc → pc = 0
  | 0, _, _, h => by cases h
  | _ + 1, 0, _, h => by
      rw [List.replicate_succ] at h
      simp only [pcAt, Option.some.injEq] at h
      omega
  | n + 1, t + 1, pc, h =>
      pcAt_replicate_zero n t pc (by
        rw [List.replicate_succ] at h
        simpa [pcAt] using h)

/-- The state after the completed first call is settled. -/
lemma first_call_settled (d : Disk) (n : Nat) :
    Settled { pipeline := some d.gen, dataframe := some d.gen, pipeLoads := 1,
              dfLoads := 1, pcs := 3 :: List.replicate n 0 } := by
  refine ⟨⟨d.gen, rfl⟩, ?_⟩
  intro t pc hpc
  cases t with
  | zero =>
      simp only [pcAt, Option.some.injEq] at hpc
      omega
  | succ t' =>
      simp only [pcAt] at hpc
      exact Or.inl (pcAt_replicate_zero n t' pc hpc)

/-- C9 (amended): the load path has no mutual exclusion, and two
interleaved first-time `get_pipeline` calls deserialize each artifact
twice (`c9_counterexample`); what does hold is that once a single
first-time call has completed its load before the remaining callers
run, each artifact has been deserialized exactly once and no schedule
of the remaining `n` callers ever deserializes again. -/
theorem c9_single_load_amended (d : Disk) (n : Nat) (sched : List Nat) :
    (runSched d (mtInit (n + 1)) ([0, 0, 0] ++ sched)).pipeLoads = 1 ∧
    (runSched d (mtInit (n + 1)) ([0, 0, 0] ++ sched)).dfLoads = 1 := by
  rw [runSched_append, first_call_state]
  exact settled_runSched d sched (first_call_settled d n)

/-- C9 counterexample: two first-time `get_pipeline` calls on a cold
cache, interleaved so both pass the `None` check before either loads,
deserialize the pipeline twice and the dataframe twice — not exactly
once, and with no mutual-exclusion mechanism in the code to prevent
it. -/
theorem c9_counterexample :
    (runSched diskG1 (mtInit 2) [0, 1, 0, 0, 1, 1]).pipeLoads = 2 ∧
    (runSched diskG1 (mtInit 2) [0, 1, 0, 0, 1, 1]).dfLoads = 2 :=
  ⟨rfl, rfl⟩

/-! ## Claim C5 -/

/-- C5 (amended): for every resolution string parsing as `"WxH"` with
integer width `W` and height `H` and every screen size `s > 0`,
`calculate_ppi` returns `sqrt(W² + H²) / s`; at `("1920x1080", 13.0)`
its value lies strictly between 169.4 and 169.5 (so it is ≈ 169.45, not
≈ 169.15 as the unamended claim has it — see `c5_counterexample`). -/
theorem c5_pixel_density_amended :
    (∀ (res : String) (W H : Int) (s : ℝ),
        parseResolution res = some (W, H) → 0 < s →
        calculate_ppi res s = some (Real.sqrt ((W : ℝ)^2 + (H : ℝ)^2) / s)) ∧
    calculate_ppi "1920x1080" 13
      = some (Real.sqrt ((1920 : ℝ)^2 + (1080 : ℝ)^2) / 13) ∧
    169.4 < Real.sqrt ((1920 : ℝ)^2 + (1080 : ℝ)^2) / 13 ∧
    Real.sqrt ((1920 : ℝ)^2 + (1080 : ℝ)^2) / 13 < 169.5 := by
  have hgen : ∀ (res : String) (W H : Int) (s : ℝ),
      parseResolution res = some (W, H) → 0 < s →
      calculate_ppi res s = some (Real.sqrt ((W : ℝ)^2 + (H : ℝ)^2) / s) := by
    intro res W H s hres _
    simp [calculate_ppi, hres]
  refine ⟨hgen, ?_, ?_, ?_⟩
  · have h := hgen "1920x1080" 1920 1080 13 (by decide) (by norm_num)
    rw [h]
    norm_num
  · rw [lt_div_iff₀ (by norm_num : (0:ℝ) < 13),
      show ((1920:ℝ)^2 + (1080:ℝ)^2) = 4852800 by norm_num,
      show (169.4:ℝ) * 13 = 2202.2 by norm_num,
      Real.lt_sqrt (by norm_num)]
    norm_num
  · rw [div_lt_iff₀ (by norm_num : (0:ℝ) < 13),
      show ((1920:ℝ)^2 + (1080:ℝ)^2) = 4852800 by norm_num,
      Real.sqrt_lt' (by norm_num)]
    norm_num

/-- Witness for C5 (amended): the general formula applied at the
concrete resolution `"1920x1080"` and screen size 13. -/
theorem c5_pixel_density_amended_witness :
    parseResolution "1920x1080" = some (1920, 1080) ∧
    calculate_ppi "1920x1080" 13
      = some (Real.sqrt (((1920:ℤ) : ℝ)^2 + ((1080:ℤ) : ℝ)^2) / 13) :=
  ⟨by decide,
   c5_pixel_density_amended.1 "1920x1080" 1920 1080 13 (by decide) (by norm_num)⟩

/-- C5 counterexample: `pixel_density("1920x1080", 13.0)` exceeds
169.15 by more than 0.25, so it is not ≈ 169.15 at the two-decimal
precision the claim states (the true value is ≈ 169.45). -/
theorem c5_counterexample :
    calculate_ppi "1920x1080" 13
      = some (Real.sqrt ((1920 : ℝ)^2 + (1080 : ℝ)^2) / 13) ∧
    169.15 + 0.25 < Real.sqrt ((1920 : ℝ)^2 + (1080 : ℝ)^2) / 13 := by
  constructor
  · have hres : parseResolution "1920x1080" = some (1920, 1080) := by decide
    simp [calculate_ppi, hres]
  · rw [show (169.15:ℝ) + 0.25 = 169.4 by norm_num,
      lt_div_iff₀ (by norm_num : (0:ℝ) < 13),
      show ((1920:ℝ)^2 + (1080:ℝ)^2) = 4852800 by norm_num,
      show (169.4:ℝ) * 13 = 2202.2 by norm_num,
      Real.lt_sqrt (by norm_num)]
    norm_num

/-! ## Claim C4 -/

/-- C4: `predict` prepares the feature record, invokes the pipeline's
inference call, and returns `exp` of the scalar (index-0) result; every
error raised during feature assembly or inference is re-raised wrapped
in the prediction-failure message carrying the original cause; and any
successfully returned price is strictly positive, hence never
negative. -/
theorem c4_predict_contract (pl : Pipeline) (frepr : ℝ → String)
    (specs : LaptopSpecs) :
    (∀ e, prepare_features frepr specs = .error e →
        predictPrice pl frepr specs = .error ("Prediction failed: " ++ e)) ∧
    (∀ features e, prepare_features frepr specs = .ok features →
        pl features = .error e →
        predictPrice pl frepr specs = .error ("Prediction failed: " ++ e)) ∧
    (∀ features x rest, prepare_features frepr specs = .ok features →
        pl features = .ok (x :: rest) →
        predictPrice pl frepr specs = .ok (Real.exp x)) ∧
    (∀ p, predictPrice pl frepr specs = .ok p → 0 < p) := by
  refine ⟨?_, ?_, ?_, ?_⟩
  · intro e he
    simp [predictPrice, he]
  · intro features e hf he
    simp [predictPrice, hf, he]
  · intro features x rest hf hx
    simp [predictPrice, hf, hx]
  · intro p hp
    unfold predictPrice at hp
    split at hp
    · cases hp
    · split at hp
      · cases hp
      · cases hp
      · cases hp
        exact Real.exp_pos _

/-- Pipeline stub whose inference always returns the log-price 0. -/
def constPipeline : Pipeline := fun _ => .ok [0]

/-- Fixed float formatter used to instantiate witnesses. -/
def freprConst : ℝ → String := fun _ => "f"

/-- A valid specification (the schema's worked example, with integral
weight and screen size). -/
def specDell : LaptopSpecs :=
  { company := "Dell", type := "Notebook", ram := 8, weight := 2,
    touchscreen := "No", ips := "Yes", screen_size := 15,
    resolution := "1920x1080", cpu := "Intel Core i5", hdd := 0, ssd := 256,
    gpu := "Intel", os := "Windows" }

/-- Witness for C4: the contract applied to a concrete pipeline stub
returning log-price 0 on the worked example — the prediction is
`exp 0` and is positive. -/
theorem c4_predict_contract_witness :
    predictPrice constPipeline freprConst specDell = .ok (Real.exp 0) ∧
    (0 : ℝ) < Real.exp 0 := by
  have h := c4_predict_contract constPipeline freprConst specDell
  have hok : predictPrice constPipeline freprConst specDell = .ok (Real.exp 0) :=
    h.2.2.1 _ 0 [] rfl rfl
  exact ⟨hok, h.2.2.2 _ hok⟩

/-! ## Claim C10 -/

/-- C10: for every specification whose resolution parses (in
particular every valid one), the feature array `prepare_features`
hands to the pipeline is promoted by numpy's common-dtype rule to a
homogeneous unicode-string array of shape (1, 12) in which every
entry — including ram, weight, the 0/1 encodings, pixel density, hdd
and ssd — is the string rendering of its value, not a number. -/
theorem c10_features_promoted_to_strings (frepr : ℝ → String)
    (specs : LaptopSpecs) (W H : Int)
    (hres : parseResolution specs.resolution = some (W, H)) :
    prepare_features frepr specs = .ok
      { dtype := .unicode
        rows := 1
        cols := 12
        data :=
          [ .str specs.company
          , .str specs.type
          , .str (toString specs.ram)
          , .str (frepr (specs.weight : ℝ))
          , .str (toString (preprocess_boolean specs.touchscreen))
          , .str (toString (preprocess_boolean specs.ips))
          , .str (frepr (Real.sqrt ((W : ℝ)^2 + (H : ℝ)^2) / (specs.screen_size : ℝ)))
          , .str specs.cpu
          , .str (toString specs.hdd)
          , .str (toString specs.ssd)
          , .str specs.gpu
          , .str specs.os ] } := by
  have hppi : calculate_ppi specs.resolution (specs.screen_size : ℝ)
      = some (Real.sqrt ((W : ℝ)^2 + (H : ℝ)^2) / (specs.screen_size : ℝ)) := by
    simp [calculate_ppi, hres]
  simp [prepare_features, hppi, npArrayOfList, featureList, npCommonDtype,
    npCast, renderVal, PyVal.isStr]

/-- Witness for C10: on the worked example with a constant float
formatter, the feature array is the unicode-string array of shape
(1, 12) with every entry stringified. -/
theorem c10_features_promoted_to_strings_witness :
    parseResolution specDell.resolution = some (1920, 1080) ∧
    prepare_features freprConst specDell = .ok
      { dtype := .unicode, rows := 1, cols := 12,
        data := [ .str "Dell", .str "Notebook", .str "8", .str "f", .str "0",
                  .str "1", .str "f", .str "Intel Core i5", .str "0",
                  .str "256", .str "Intel", .str "Windows" ] } := by
  refine ⟨by decide, ?_⟩
  exact c10_features_promoted_to_strings freprConst specDell 1920 1080 (by decide)

/-! ## Claim C6 -/

/-- Membership in the pandas-unique model. -/
lemma mem_pdUniqueAux {a : String} :
    ∀ (l seen : List String), a ∈ pdUniqueAux l seen ↔ a ∈ l ∧ a ∉ seen := by
  intro l
  induction l with
  | nil =>
      intro seen
      simp [pdUniqueAux]
  | cons x xs ih =>
      intro seen
      by_cases hx : x ∈ seen
      · simp only [pdUniqueAux, if_pos hx, ih, List.mem_cons]
        constructor
        · rintro ⟨h1, h2⟩
          exact ⟨Or.inr h1, h2⟩
        · rintro ⟨h1 | h1, h2⟩
          · subst h1
            exact absurd hx h2
          · exact ⟨h1, h2⟩
      · simp only [pdUniqueAux, if_neg hx, List.mem_cons, ih]
        constructor
        · rintro (rfl | ⟨h1, h2⟩)
          · exact ⟨Or.inl rfl, hx⟩
          · exact ⟨Or.inr h1, fun hs => h2 (Or.inr hs)⟩
        · rintro ⟨h1 | h1, h2⟩
          · exact Or.inl h1
          · by_cases hax : a = x
            · exact Or.inl hax
            · refine Or.inr ⟨h1, fun hs => ?_⟩
              rcases hs with h | h
              · exact hax h
              · exact h2 h

/-- The pandas-unique model never emits a value twice. -/
lemma nodup_pdUniqueAux : ∀ (l seen : List String), (pdUniqueAux l seen).Nodup
  | [], _ => List.nodup_nil
  | x :: xs, seen => by
      by_cases hx : x ∈ seen
      · simpa only [pdUniqueAux, if_pos hx] using nodup_pdUniqueAux xs seen
      · simp only [pdUniqueAux, if_neg hx]
        refine List.nodup_cons.2 ⟨?_, nodup_pdUniqueAux xs (x :: seen)⟩
        rw [mem_pdUniqueAux]
        rintro ⟨_, h2⟩
        exact h2 (List.mem_cons_self x seen)

/-- What it means to be the sorted duplicate-free catalog of a
column: sorted, without duplicates, and containing exactly the values
observed in the column. -/
def IsSortedDistinct (out col : List String) : Prop :=
  out.Sorted (· ≤ ·) ∧ out.Nodup ∧ ∀ a, a ∈ out ↔ a ∈ col

/-- `sorted(unique(col))` is the sorted duplicate-free catalog of
`col`. -/
lemma isSortedDistinct_pySorted_pdUnique (col : List String) :
    IsSortedDistinct (pySorted (pdUnique col)) col := by
  refine ⟨List.sorted_insertionSort _ _, ?_, ?_⟩
  · exact ((List.perm_insertionSort _ _).nodup_iff).2 (nodup_pdUniqueAux col [])
  · intro a
    rw [pySorted, List.Perm.mem_iff (List.perm_insertionSort _ _), pdUnique,
      mem_pdUniqueAux]
    simp

/-- C6: `get_feature_options` returns, for each of the five
categorical columns of the reference dataframe and keyed exactly by
`companies`, `types`, `cpu_brands`, `gpu_brands`,
`operating_systems`, the sorted duplicate-free list of distinct
observed values; in particular the `companies` entry is the sorted set
of distinct `Company` values. -/
theorem c6_feature_options_catalog (df : ReferenceDf) :
    IsSortedDistinct (get_feature_options df).companies df.company ∧
    IsSortedDistinct (get_feature_options df).types df.typeName ∧
    IsSortedDistinct (get_feature_options df).cpu_brands df.cpuBrand ∧
    IsSortedDistinct (get_feature_options df).gpu_brands df.gpuBrand ∧
    IsSortedDistinct (get_feature_options df).operating_systems df.os :=
  ⟨isSortedDistinct_pySorted_pdUnique _, isSortedDistinct_pySorted_pdUnique _,
   isSortedDistinct_pySorted_pdUnique _, isSortedDistinct_pySorted_pdUnique _,
   isSortedDistinct_pySorted_pdUnique _⟩
